import Mathlib

/-!
Shallow embedding of the vigilix TUI (github.com/LOVENISH87/vigilix).

The program is a Bubble Tea (Elm-architecture) terminal dashboard for
systemd units.  The embedding below translates, from the Go source:

* `internal/systemd` — the `Unit` record (`src/unnamed/part_000`);
* `internal/ui/ui.go` — the controller `model`, its message types, the
  `Update` transition function, `updateListItems`, `startStreaming`,
  `waitForLogLine`, the result-folding helpers `fetchUnits` /
  `fetchConfig` / `fetchStats`, and the width-clamping / truncation
  logic of `itemDelegate.Render` and `View`.

Modelling conventions:

* Go channels and `context.Context` values are identified by `Nat` ids;
  a ghost allocator `nextId` in the model hands out fresh ids (the Go
  code creates fresh heap objects instead).  `nil` is `Option.none`.
* Side effects (`tea.Cmd`s, the `go func` spawn in `startStreaming`,
  and `logCancel()`) are reified as an explicit `Effect` list returned
  by the transition function, in the order the Go code issues them.
* The Bubble Tea runtime (one inbound message queue, commands executed
  concurrently, `waitForLogLine` blocking on a channel receive) is
  modelled by the small-step system `Sys` further below.
* The bubbles `list.Model` sub-component is projected to the fields the
  program observes: the item slice set by `SetItems` (which replaces
  the items and leaves the numeric cursor untouched), the cursor index
  moved by up/down keys, the title, and the filter-entry flag.
  The `viewport` sub-component is projected to its content string.
* `tea.WindowSizeMsg` and `spinner.TickMsg` only touch presentation
  geometry and the spinner animation; they are carried as no-op /
  geometry-only messages.  Text strings in the renderer are measured in
  display cells and modelled as `List Char`.
-/

namespace Vigilix

/-- `systemd.Unit` from `internal/systemd` (src/unnamed/part_000). -/
structure SystemdUnit where
  name : String
  loadState : String
  activeState : String
  subState : String
  description : String
deriving DecidableEq, Repr

/-- `statsMsg` from ui.go (hostname, os, uptime, kernel). -/
structure StatsMsg where
  hostname : String
  os : String
  uptime : Nat
  kernel : String
deriving DecidableEq, Repr

/-- Pane constant `PaneList` from ui.go. -/
def PaneList : Nat := 0

/-- Pane constant `PaneContent` from ui.go. -/
def PaneContent : Nat := 1

/-- View-mode constant `ModeDashboard` from ui.go. -/
def ModeDashboard : Nat := 0

/-- View-mode constant `ModeList` from ui.go. -/
def ModeList : Nat := 1

/-- View-mode constant `ModeLogs` from ui.go. -/
def ModeLogs : Nat := 2

/-- View-mode constant `ModeConfig` from ui.go. -/
def ModeConfig : Nat := 3

/-- Key presses the controller distinguishes (`tea.KeyMsg`). `q` also
stands for ctrl+c (both bound to Quit). `other` is any other key. -/
inductive Key where
  | enter | space | tab | l | right | esc | up | down
  | d | c | s | x | r | q | other
deriving DecidableEq, Repr

/-- The controller's inbound message type: the cases of the `switch` in
`Update` (ui.go).  `errM` is `errMsg`, `units` is the `[]systemd.Unit`
case, `actionResult` is `actionResultMsg` (error modelled as
`Option String`, `none` = nil).  `windowSize` is `tea.WindowSizeMsg`;
`spinnerTick` is `spinner.TickMsg`. -/
inductive Msg where
  | key (k : Key)
  | windowSize (w h : Int)
  | units (us : List SystemdUnit)
  | logLine (s : String)
  | config (s : String)
  | stats (st : StatsMsg)
  | actionResult (err : Option String) (action : String)
  | errM (e : String)
  | spinnerTick
deriving DecidableEq, Repr

/-- Control-action kinds (`systemd.StartUnit` / `StopUnit` / `RestartUnit`). -/
inductive ActionKind where
  | start | stop | restart
deriving DecidableEq, Repr

/-- Reified side effects of one `Update` step: the `tea.Cmd`s the Go code
returns plus, made explicit, the `m.logCancel()` call and the
`go systemd.StreamLogs(...)` spawn performed inside `startStreaming`. -/
inductive Effect where
  | fetchUnits
  | fetchConfig (name : String)
  | fetchStats
  | performAction (kind : ActionKind) (name : String) (label : String)
  | waitLogLine (ch : Option Nat)
  | cancelCtx (ctx : Nat)
  | spawnStream (ctx ch : Nat) (name : String)
  | quit
deriving DecidableEq, Repr

/-- The `model` struct of ui.go, restricted to the fields the program
reads or writes.  The bubbles list is projected to
`listItems`/`listIndex`/`listTitle`/`settingFilter`; the viewport to
`viewportContent`.  `logCtx`/`logCancel`/`logChan` hold identities of
the context, its cancel function and the channel (`none` = Go `nil`);
`nextId` is a ghost allocator for those identities. -/
structure Model where
  listItems : List SystemdUnit
  listIndex : Nat
  listTitle : String
  settingFilter : Bool
  viewportContent : String
  activePane : Nat
  viewMode : Nat
  devMode : Bool
  width : Int
  height : Int
  allUnits : List SystemdUnit
  logLines : List String
  configContent : String
  streamingUnit : String
  stats : StatsMsg
  logCtx : Option Nat
  logCancel : Option Nat
  logChan : Option Nat
  nextId : Nat
  err : Option String
  statusMessage : String
deriving DecidableEq, Repr

/-- `NewModel` from ui.go: fields set explicitly there, all others at Go
zero values (empty strings, nil slices, nil pointers/chans). -/
def NewModel : Model :=
  { listItems := []
    listIndex := 0
    listTitle := "Units"
    settingFilter := false
    viewportContent := ""
    activePane := PaneList
    viewMode := ModeDashboard
    devMode := true
    width := 0
    height := 0
    allUnits := []
    logLines := []
    configContent := ""
    streamingUnit := ""
    stats := ⟨"", "", 0, ""⟩
    logCtx := none
    logCancel := none
    logChan := none
    nextId := 0
    err := none
    statusMessage := "Ready" }

/-- `strings.Contains(s, substr)` (Go), on the character sequences. -/
def goContains (s substr : String) : Bool :=
  decide (substr.toList <:+: s.toList)

/-- `strings.ToLower(s)` (Go), applied per character. -/
def goToLower (s : String) : String := ⟨s.toList.map Char.toLower⟩

/-- The hardcoded dev keyword list in `updateListItems` (ui.go). -/
def devKeywords : List String :=
  ["docker", "mongo", "postgres", "mysql", "redis", "nginx", "apache",
   "node", "python", "go", "java", "php", "ruby", "rust", "app", "api",
   "service", "web", "worker", "db"]

/-- The per-unit dev test inside the `updateListItems` loop: the
lower-cased name contains one of the keywords. -/
def isDevUnit (u : SystemdUnit) : Bool :=
  devKeywords.any (fun kw => goContains (goToLower u.name) kw)

/-- The filtering loop of `updateListItems`: with dev mode on keep only
dev units, otherwise keep every unit (order preserved). -/
def filterUnits (devMode : Bool) (units : List SystemdUnit) : List SystemdUnit :=
  if devMode then units.filter isDevUnit else units

/-- `updateListItems` (ui.go): recompute the visible items from
`allUnits` and the dev-mode flag (`list.SetItems` leaves the cursor
index untouched), and set the list title. -/
def updateListItems (m : Model) : Model :=
  { m with
    listItems := filterUnits m.devMode m.allUnits
    listTitle := if m.devMode then "Dev Services 🚀" else "System Units" }

/-- `m.list.SelectedItem()` (bubbles): the item at the cursor index, or
`none` when the index is out of range. -/
def selectedItem (m : Model) : Option SystemdUnit :=
  m.listItems.get? m.listIndex

/-- The cursor movement of `m.list.Update(msg)` (bubbles list): up/down
move the cursor within bounds; the other keys the program forwards do
not move it. -/
def listUpdate (m : Model) (k : Key) : Model :=
  match k with
  | Key.down =>
      if m.listIndex + 1 < m.listItems.length then
        { m with listIndex := m.listIndex + 1 }
      else m
  | Key.up =>
      if m.listIndex > 0 then { m with listIndex := m.listIndex - 1 } else m
  | _ => m

/-- `startStreaming` (ui.go): no-op when the target is already the
streaming unit; otherwise cancel the old context (if any), clear the
log buffer, record the new target, allocate a fresh context/cancel and
channel, and spawn `systemd.StreamLogs` bound to them. -/
def startStreaming (m : Model) (name : String) : Model × List Effect :=
  if m.streamingUnit = name then (m, [])
  else
    let cancelEffs : List Effect :=
      match m.logCancel with
      | some c => [Effect.cancelCtx c]
      | none => []
    let ctxId := m.nextId
    let chId := m.nextId + 1
    ({ m with
        logLines := []
        streamingUnit := name
        logCtx := some ctxId
        logCancel := some ctxId
        logChan := some chId
        nextId := m.nextId + 2 },
     cancelEffs ++ [Effect.spawnStream ctxId chId name])

/-- The `logLineMsg` buffer handling in `Update` (ui.go lines 497-501):
append the line, then if the length exceeds 1000 keep the last 1000
(`m.logLines[len(m.logLines)-1000:]`).  Factored out so the cap can be
reasoned about directly; `update` below uses it verbatim. -/
def applyLogLine (logLines : List String) (s : String) : List String :=
  let ls := logLines ++ [s]
  if ls.length > 1000 then ls.drop (ls.length - 1000) else ls

/-- The key branch of `Update` (ui.go): quit check, dashboard handling,
tab, the dev-filter toggle, the filter-entry early return, then the
per-pane switch. -/
def updateKey (m : Model) (k : Key) : Model × List Effect :=
  if k = Key.q then
    (m,
     (match m.logCancel with
      | some c => [Effect.cancelCtx c]
      | none => []) ++ [Effect.quit])
  else if m.viewMode = ModeDashboard then
    match k with
    | Key.enter | Key.space | Key.tab | Key.l | Key.right =>
        ({ m with viewMode := ModeList, activePane := PaneList }, [])
    | _ => (m, [])
  else if k = Key.tab then
    ({ m with
        activePane := if m.activePane = PaneList then PaneContent else PaneList },
     [])
  else if k = Key.d then
    let m1 := updateListItems { m with devMode := !m.devMode }
    ({ m1 with
        statusMessage := "Dev Mode: " ++ (if m1.devMode then "true" else "false") },
     [])
  else if m.activePane = PaneList ∧ m.settingFilter then
    -- the list's own filter-input handling; it does not touch the
    -- controller fields modelled here
    (m, [])
  else if m.activePane = PaneList then
    match k with
    | Key.enter =>
        let m1 := { m with viewMode := ModeLogs, activePane := PaneContent }
        (match selectedItem m1 with
         | some u =>
             let p := startStreaming m1 u.name
             (listUpdate p.1 k, p.2 ++ [Effect.waitLogLine p.1.logChan])
         | none => (listUpdate m1 k, []))
    | Key.c =>
        let m1 := { m with viewMode := ModeConfig, activePane := PaneContent }
        (match selectedItem m1 with
         | some u => (listUpdate m1 k, [Effect.fetchConfig u.name])
         | none => (listUpdate m1 k, []))
    | Key.s =>
        (match selectedItem m with
         | some u =>
             (listUpdate m k,
              [Effect.performAction ActionKind.start u.name "Started"])
         | none => (listUpdate m k, []))
    | Key.x =>
        (match selectedItem m with
         | some u =>
             (listUpdate m k,
              [Effect.performAction ActionKind.stop u.name "Stopped"])
         | none => (listUpdate m k, []))
    | Key.r =>
        (match selectedItem m with
         | some u =>
             (listUpdate m k,
              [Effect.performAction ActionKind.restart u.name "Restarted"])
         | none => (listUpdate m k, []))
    | _ => (listUpdate m k, [])
  else
    if k = Key.esc then ({ m with activePane := PaneList }, [])
    else (m, [])

/-- `Update` (ui.go): the exhaustive fold over the message variants.
Note there is no `case errMsg` in the Go switch, so `errM` falls
through with the model unchanged and no commands. -/
def update (m : Model) (msg : Msg) : Model × List Effect :=
  match msg with
  | Msg.key k => updateKey m k
  | Msg.windowSize w h => ({ m with width := w, height := h }, [])
  | Msg.units us => (updateListItems { m with allUnits := us }, [])
  | Msg.logLine s =>
      let m1 :=
        if s ≠ "" then
          let ls := applyLogLine m.logLines s
          let m2 := { m with logLines := ls }
          if m2.viewMode = ModeLogs then
            { m2 with viewportContent := String.intercalate "\n" ls }
          else m2
        else m
      (m1, [Effect.waitLogLine m1.logChan])
  | Msg.config s =>
      let m1 := { m with configContent := s }
      let m2 :=
        if m1.viewMode = ModeConfig then { m1 with viewportContent := s } else m1
      (m2, [])
  | Msg.stats st => ({ m with stats := st }, [])
  | Msg.actionResult err action =>
      match err with
      | some e => ({ m with statusMessage := "Error: " ++ e }, [])
      | none =>
          ({ m with statusMessage := action ++ " unit." }, [Effect.fetchUnits])
  | Msg.errM _ => (m, [])
  | Msg.spinnerTick => (m, [])

/-- Result of a Go channel receive as `waitForLogLine` sees it:
either the channel is closed (`ok == false`) or a value arrives. -/
inductive RecvResult where
  | closed
  | value (s : String)
deriving DecidableEq, Repr

/-- `waitForLogLine` (ui.go): a nil channel yields a nil message; a
closed channel yields a nil message; otherwise the received line is
wrapped as `logLineMsg`.  A `none` result is Bubble Tea's nil message:
`Update` is never called for it, so no follow-up effect is issued. -/
def waitForLogLine (sub : Option Nat) (recv : Nat → RecvResult) : Option Msg :=
  match sub with
  | none => none
  | some c =>
      match recv c with
      | RecvResult.closed => none
      | RecvResult.value line => some (Msg.logLine line)

/-- `fetchUnits` (ui.go): an error becomes `errMsg`, success becomes the
`[]systemd.Unit` message. -/
def fetchUnitsResult (r : Except String (List SystemdUnit)) : Msg :=
  match r with
  | Except.error e => Msg.errM e
  | Except.ok us => Msg.units us

/-- `fetchConfig` (ui.go): an error becomes
`configMsg("Error reading config: " + err)`, success the content. -/
def fetchConfigResult (r : Except String String) : Msg :=
  match r with
  | Except.error e => Msg.config ("Error reading config: " ++ e)
  | Except.ok content => Msg.config content

/-- The `host.Info()` fields `fetchStats` reads. -/
structure HostInfo where
  hostname : String
  platform : String
  uptime : Nat
  kernelVersion : String
deriving DecidableEq, Repr

/-- `fetchStats` (ui.go): an error becomes placeholder stats with
hostname and os `"Unknown"` (other fields at zero values); success
copies the host info. -/
def fetchStatsResult (r : Except String HostInfo) : Msg :=
  match r with
  | Except.error _ => Msg.stats ⟨"Unknown", "Unknown", 0, ""⟩
  | Except.ok i => Msg.stats ⟨i.hostname, i.platform, i.uptime, i.kernelVersion⟩

/-!
The Bubble Tea runtime around the controller, as a small-step system.

One `systemd.StreamLogs` goroutine per spawned subscription: it is bound
to a context and a channel, targets one unit, and will emit the lines of
that unit's journal source.  The runtime keeps one inbound message queue
(key presses and command results arrive there in arrival order and are
folded one at a time), and every `waitForLogLine` command is a pending
blocking receive on the channel it captured.
-/

/-- One spawned `systemd.StreamLogs` goroutine: its context id, the
channel it sends on, the unit it tails, and the journal lines its
source has yet to emit. -/
structure StreamSt where
  ctx : Nat
  ch : Nat
  target : String
  pending : List String
deriving DecidableEq, Repr

/-- The whole running system: the controller model, the inbound message
queue, the channel arguments of pending `waitForLogLine` receives, the
live stream goroutines, the cancelled context ids, and the number of
in-flight `fetchUnits` commands. -/
structure Sys where
  model : Model
  queue : List Msg
  reads : List (Option Nat)
  streams : List StreamSt
  cancelledCtxs : List Nat
  pendingUnitFetches : Nat
deriving DecidableEq, Repr

/-- Apply one reified effect to the system: `fetchUnits` launches a
fetch, `waitLogLine` registers a pending receive, `cancelCtx` marks the
context cancelled (`context.WithCancel`'s cancel function is
synchronous), `spawnStream` starts a `StreamLogs` goroutine whose
source lines are given by `src` (the journal content of the unit).
Config/action/stats commands and quit have no bearing on the log
pipeline and leave the system unchanged. -/
def applyEffect (src : String → List String) (s : Sys) (e : Effect) : Sys :=
  match e with
  | Effect.fetchUnits => { s with pendingUnitFetches := s.pendingUnitFetches + 1 }
  | Effect.waitLogLine ch => { s with reads := s.reads ++ [ch] }
  | Effect.cancelCtx c => { s with cancelledCtxs := s.cancelledCtxs ++ [c] }
  | Effect.spawnStream ctx ch name =>
      { s with streams := s.streams ++ [⟨ctx, ch, name, src name⟩] }
  | _ => s

/-- Scheduler choices: which enabled step the runtime takes next.
`keyC` is the user pressing a key (enqueued in arrival order);
`unitsFetchDone` completes one in-flight `fetchUnits` with `unitsRes`;
`deliver i` lets stream `i` hand its next line to a pending receive on
its channel (a rendezvous on an unbuffered Go channel, enqueuing the
resulting `logLineMsg`); `processC` lets the controller dequeue and
fold one message, applying the returned effects. -/
inductive Choice where
  | keyC (k : Key)
  | unitsFetchDone
  | deliver (i : Nat)
  | processC
deriving DecidableEq, Repr

/-- One scheduler step.  A choice whose precondition is not met leaves
the system unchanged.  `deliver i` requires a pending receive on the
stream's channel — that is exactly when the `select` inside
`systemd.StreamLogs` can take its `out <- text` case; note the Go code
never closes the channel and the send is not guarded by the target
still being the active one. -/
def sysStep (src : String → List String) (unitsRes : List SystemdUnit)
    (s : Sys) (c : Choice) : Sys :=
  match c with
  | Choice.keyC k => { s with queue := s.queue ++ [Msg.key k] }
  | Choice.unitsFetchDone =>
      if s.pendingUnitFetches > 0 then
        { s with
          pendingUnitFetches := s.pendingUnitFetches - 1
          queue := s.queue ++ [Msg.units unitsRes] }
      else s
  | Choice.deliver i =>
      match s.streams.get? i with
      | some st =>
          match st.pending with
          | line :: rest =>
              if (some st.ch) ∈ s.reads then
                { s with
                  streams := s.streams.set i { st with pending := rest }
                  reads := s.reads.erase (some st.ch)
                  queue := s.queue ++ [Msg.logLine line] }
              else s
          | [] => s
      | none => s
  | Choice.processC =>
      match s.queue with
      | [] => s
      | msg :: rest =>
          let p := update s.model msg
          p.2.foldl (applyEffect src) { s with model := p.1, queue := rest }

/-- Run a scheduler script from a start state. -/
def sysRun (src : String → List String) (unitsRes : List SystemdUnit)
    (s0 : Sys) (script : List Choice) : Sys :=
  script.foldl (sysStep src unitsRes) s0

/-- The system at program start: `NewModel`, empty queue, and the one
`fetchUnits` command issued by `Init` in flight (the spinner tick and
stats fetch do not interact with the log pipeline). -/
def sysInit : Sys :=
  { model := NewModel
    queue := []
    reads := []
    streams := []
    cancelledCtxs := []
    pendingUnitFetches := 1 }

/-!
The width handling of the presentation layer, from `itemDelegate.Render`
and `View` (ui.go).  Strings are modelled as lists of display cells;
the two Go operations that can fault — `strings.Repeat` with a negative
count and slicing `s[:i]` out of range — return `none`, so `isSome`
states freedom from those panics.
-/

/-- `strings.Repeat(string(ch), n)` (Go): panics for a negative count. -/
def goRepeat (ch : Char) (n : Int) : Option (List Char) :=
  if n < 0 then none else some (List.replicate n.toNat ch)

/-- Go slice `s[:i]`: panics when the bound is outside `[0, len s]`. -/
def goSliceUpTo (s : List Char) (i : Int) : Option (List Char) :=
  if 0 ≤ i ∧ i ≤ (s.length : Int) then some (s.take i.toNat) else none

/-- The three-dot marker appended by the truncation code. -/
def ellipsisMark : List Char := ['.', '.', '.']

/-- The truncation pattern used for the title and the description in
`itemDelegate.Render`: overflowing text is cut to `avail - 3` cells
plus the marker when `avail > 3`, and hidden entirely otherwise. -/
def truncateLine (s : List Char) (avail : Int) : Option (List Char) :=
  if (s.length : Int) > avail then
    if avail > 3 then (goSliceUpTo s (avail - 3)).map (fun t => t ++ ellipsisMark)
    else some []
  else some s

/-- The status badge: `strings.ToUpper(activeState)` with one cell of
padding on each side (`Padding(0, 1)`). -/
def badgeOf (activeState : List Char) : List Char :=
  ' ' :: (activeState.map Char.toUpper ++ [' '])

/-- The two text lines produced for one list row. -/
structure RenderedItem where
  line1 : List Char
  line2 : List Char
deriving DecidableEq, Repr

/-- `itemDelegate.Render` (ui.go): width fallback to 40 when the list
reports a non-positive width, inner width clamped at 0 against the
item frame (both the selected and the unselected style occupy 2 cells),
title truncated against the space left of the badge, gap clamped at 0,
description truncated against the inner width. -/
def renderItem (listWidth : Int) (title desc activeState : List Char)
    (isSelected : Bool) : Option RenderedItem :=
  let totalWidth : Int := if listWidth ≤ 0 then 40 else listWidth
  let statusBadge := badgeOf activeState
  let frame : Int := if isSelected then 1 + 1 else 2
  let innerWidthRaw := totalWidth - frame
  let innerWidth := if innerWidthRaw < 0 then 0 else innerWidthRaw
  let badgeWidth : Int := statusBadge.length
  let availableTitleWidth := innerWidth - badgeWidth - 2
  match truncateLine title availableTitleWidth with
  | none => none
  | some titleStr =>
      let gapSizeRaw := innerWidth - (titleStr.length : Int) - badgeWidth
      let gapSize := if gapSizeRaw < 0 then 0 else gapSizeRaw
      match goRepeat ' ' gapSize with
      | none => none
      | some gap =>
          match truncateLine desc innerWidth with
          | none => none
          | some descStr => some ⟨titleStr ++ gap ++ statusBadge, descStr⟩

/-- The header spacer computation in `View` (ui.go): the space between
the UNIT and STATUS captions, clamped at 0 before `strings.Repeat`. -/
def viewSpacer (listContentWidth headerW statusW : Int) : Option (List Char) :=
  let raw := listContentWidth - headerW - statusW
  let w := if raw < 0 then 0 else raw
  goRepeat ' ' w

/-- The tab-row separator computation in `View` (ui.go): the main width
minus the two tabs, the header info and 4, clamped at 0 before
`strings.Repeat`. -/
def viewSeparatorLine (mainWidth logsW configW infoW : Int) : Option (List Char) :=
  let raw := mainWidth - logsW - configW - infoW - 4
  let n := if raw < 0 then 0 else raw
  goRepeat '─' n

/-!
Concrete scenario used by the temporal claims: two dev-named units,
unit `alpha.service` whose journal holds one line `"a1"`, unit
`beta.service` whose journal is empty.
-/

/-- A first dev-named unit, with one journal line. -/
def unitAlpha : SystemdUnit :=
  ⟨"alpha.service", "loaded", "active", "running", "Alpha daemon"⟩

/-- A second dev-named unit, with an empty journal. -/
def unitBeta : SystemdUnit :=
  ⟨"beta.service", "loaded", "inactive", "dead", "Beta daemon"⟩

/-- Journal sources of the scenario. -/
def scnSrc : String → List String :=
  fun n => if n = "alpha.service" then ["a1"] else []

/-- Service-list result of the scenario. -/
def scnUnits : List SystemdUnit := [unitAlpha, unitBeta]

/-- Run a scheduler script of the scenario from program start. -/
def scnRun (script : List Choice) : Sys :=
  sysRun scnSrc scnUnits sysInit script

/-- The scheduler script refuting C1: boot, fetch the list, leave the
dashboard, view logs of `alpha.service` (a pending receive is now
blocked on alpha's channel), then the user presses esc / down / enter
while alpha's line is delivered to the still-pending receive — so the
`logLineMsg` sits in the queue behind the three key presses.  The
controller folds the keys first (the enter switches the subscription to
`beta.service`, cancelling alpha and clearing the buffer) and then
folds the stale `logLineMsg`, appending alpha's line to beta's buffer. -/
def c1script : List Choice :=
  [Choice.unitsFetchDone, Choice.processC,
   Choice.keyC Key.enter, Choice.processC,
   Choice.keyC Key.enter, Choice.processC,
   Choice.keyC Key.esc, Choice.keyC Key.down, Choice.keyC Key.enter,
   Choice.deliver 0,
   Choice.processC, Choice.processC, Choice.processC, Choice.processC]

/-- Claim C1 as a proposition over the scenario: under every scheduling,
every line the buffer holds was emitted by the journal source of the
unit the subscription currently targets — i.e. no line of a superseded
subscription's stream is ever appended. -/
def claimC1 : Prop :=
  ∀ script : List Choice, ∀ l ∈ (scnRun script).model.logLines,
    l ∈ scnSrc (scnRun script).model.streamingUnit

/-- A reachable state with `beta.service` selected (cursor index 1):
boot, fold the unit-list result, advance past the dashboard, move the
cursor down once. -/
def c5model : Model :=
  (update
    ((update
      ((update NewModel (Msg.units scnUnits)).1)
      (Msg.key Key.enter)).1)
    (Msg.key Key.down)).1

/-- A state already streaming `alpha.service` with the cursor on it
(shape produced by selecting alpha for logs and pressing esc back). -/
def c7model : Model :=
  { NewModel with
      viewMode := ModeList
      activePane := PaneList
      allUnits := [unitAlpha]
      listItems := [unitAlpha]
      listIndex := 0
      streamingUnit := "alpha.service"
      logCtx := some 0
      logCancel := some 0
      logChan := some 1
      nextId := 2
      logLines := ["old line"] }

/-!
Helper lemmas shared by the claim theorems.
-/

/-- The bubbles list cursor handling changes only the cursor index. -/
theorem listUpdate_eq_mod_index (m : Model) (k : Key) :
    listUpdate m k = { m with listIndex := (listUpdate m k).listIndex } := by
  cases k <;> simp only [listUpdate] <;> first | rfl | (split <;> rfl)

/-- The cursor handling leaves the channel identity alone. -/
theorem listUpdate_logChan (m : Model) (k : Key) :
    (listUpdate m k).logChan = m.logChan := by
  rw [listUpdate_eq_mod_index]

/-- `startStreaming` issues no wait-for-line effect itself (the caller
does, against the updated channel). -/
theorem startStreaming_no_wait (m : Model) (name : String) (ch : Option Nat) :
    Effect.waitLogLine ch ∉ (startStreaming m name).2 := by
  unfold startStreaming
  split
  · simp
  · cases m.logCancel <;> simp

/-- `startStreaming` does not touch the visible item list. -/
theorem startStreaming_listItems (m : Model) (name : String) :
    (startStreaming m name).1.listItems = m.listItems := by
  unfold startStreaming; split <;> rfl

/-- `startStreaming` does not touch the dev-mode flag. -/
theorem startStreaming_devMode (m : Model) (name : String) :
    (startStreaming m name).1.devMode = m.devMode := by
  unfold startStreaming; split <;> rfl

/-- `startStreaming` does not touch the fetched collection. -/
theorem startStreaming_allUnits (m : Model) (name : String) :
    (startStreaming m name).1.allUnits = m.allUnits := by
  unfold startStreaming; split <;> rfl

/-- Appending through the cap logic keeps the buffer within 1000. -/
theorem applyLogLine_length_le (buf : List String) (s : String)
    (h : buf.length ≤ 1000) : (applyLogLine buf s).length ≤ 1000 := by
  unfold applyLogLine
  dsimp only
  split
  · rename_i hgt
    simp only [List.length_drop, List.length_append, List.length_cons,
      List.length_nil] at hgt ⊢
    omega
  · rename_i hle
    simp only [List.length_append, List.length_cons, List.length_nil] at hle ⊢
    omega

/-- Folding any stream of lines from the empty buffer respects the cap. -/
theorem foldl_applyLogLine_length_le (msgs : List String) :
    ∀ buf : List String, buf.length ≤ 1000 →
      (msgs.foldl applyLogLine buf).length ≤ 1000 := by
  induction msgs with
  | nil => intro buf h; simpa using h
  | cons s rest ih =>
      intro buf h
      exact ih _ (applyLogLine_length_le buf s h)

/-- At the cap, appending drops exactly the oldest line. -/
theorem applyLogLine_at_cap (buf : List String) (s : String)
    (h : buf.length = 1000) : applyLogLine buf s = buf.drop 1 ++ [s] := by
  unfold applyLogLine
  dsimp only
  rw [if_pos (by simp [h])]
  have h1 : (buf ++ [s]).length - 1000 = 1 := by simp [h]
  rw [h1, List.drop_append_of_le_length (by omega)]

/-- The invariant that the visible list is the filtered view of the
last-fetched collection under the current dev-mode flag. -/
def viewFresh (m : Model) : Prop :=
  m.listItems = filterUnits m.devMode m.allUnits

/-- Transfer of freshness along equal projections. -/
theorem viewFresh_keep {m m' : Model} (h : viewFresh m)
    (h1 : m'.listItems = m.listItems) (h2 : m'.devMode = m.devMode)
    (h3 : m'.allUnits = m.allUnits) : viewFresh m' := by
  unfold viewFresh at h ⊢
  rw [h1, h2, h3]
  exact h

/-- A repeat over a count that was already clamped at zero never hits
the negative-count panic. -/
theorem goRepeat_clamped (c : Char) (raw : Int) :
    goRepeat c (if raw < 0 then 0 else raw) =
      some (List.replicate (if raw < 0 then (0 : Int) else raw).toNat c) := by
  unfold goRepeat
  rw [if_neg]
  split <;> omega

/-- Closed form of the truncation pattern: it never hits the slicing
panic, cuts with the marker exactly when the width exceeds 3, and hides
the text when it does not. -/
theorem truncateLine_eq (s : List Char) (avail : Int) :
    truncateLine s avail =
      some (if (s.length : Int) > avail then
              if avail > 3 then s.take (avail - 3).toNat ++ ellipsisMark else []
            else s) := by
  unfold truncateLine goSliceUpTo
  split
  · split
    · rename_i hgt h3
      rw [if_pos ⟨by omega, by omega⟩]
      rfl
    · rfl
  · rfl

/-- Closed form of the header spacer: clamped, never panics. -/
theorem viewSpacer_eq (lcw hw sw : Int) :
    viewSpacer lcw hw sw =
      some (List.replicate (max (lcw - hw - sw) 0).toNat ' ') := by
  unfold viewSpacer
  dsimp only
  rw [goRepeat_clamped]
  have h : (if lcw - hw - sw < 0 then (0 : Int) else lcw - hw - sw).toNat =
      (max (lcw - hw - sw) 0).toNat := by
    split <;> omega
  rw [h]

/-- Closed form of the tab-row separator: clamped, never panics. -/
theorem viewSeparatorLine_eq (mw lw cw iw : Int) :
    viewSeparatorLine mw lw cw iw =
      some (List.replicate (max (mw - lw - cw - iw - 4) 0).toNat '─') := by
  unfold viewSeparatorLine
  dsimp only
  rw [goRepeat_clamped]
  have h : (if mw - lw - cw - iw - 4 < 0 then (0 : Int) else mw - lw - cw - iw - 4).toNat =
      (max (mw - lw - cw - iw - 4) 0).toNat := by
    split <;> omega
  rw [h]

/-- The row renderer is total: no width combination reaches a negative
repeat or an out-of-range slice. -/
theorem renderItem_isSome (w : Int) (t d a : List Char) (sel : Bool) :
    (renderItem w t d a sel).isSome = true := by
  unfold renderItem
  dsimp only
  rw [truncateLine_eq]
  dsimp only
  rw [goRepeat_clamped]
  dsimp only
  rw [truncateLine_eq]
  rfl

/-- At a list width of 2 the inner width is 0: the title, the gap and
the description all render empty (only the fixed status badge remains)
and no panic is reached. -/
theorem renderItem_inner_zero (t d a : List Char) (sel : Bool) :
    renderItem 2 t d a sel = some ⟨badgeOf a, []⟩ := by
  have hbadge : (badgeOf a).length = a.length + 2 := by simp [badgeOf]
  unfold renderItem
  dsimp only
  rw [truncateLine_eq]
  dsimp only
  rw [goRepeat_clamped]
  dsimp only
  rw [truncateLine_eq]
  cases sel <;> simp only [hbadge] <;> norm_num <;>
    rw [if_pos (show -2 + -(a.length : Int) - 2 < (t.length : Int) by omega),
        if_neg (show ¬ (3 : Int) < -2 + -(a.length : Int) - 2 by omega)] <;>
    simp <;> (split <;> omega)

/-- The cursor handling leaves the visible items alone. -/
theorem listUpdate_listItems (m : Model) (k : Key) :
    (listUpdate m k).listItems = m.listItems := by
  rw [listUpdate_eq_mod_index]

/-- The cursor handling leaves the dev-mode flag alone. -/
theorem listUpdate_devMode (m : Model) (k : Key) :
    (listUpdate m k).devMode = m.devMode := by
  rw [listUpdate_eq_mod_index]

/-- The cursor handling leaves the fetched collection alone. -/
theorem listUpdate_allUnits (m : Model) (k : Key) :
    (listUpdate m k).allUnits = m.allUnits := by
  rw [listUpdate_eq_mod_index]

/-- Recomputing the visible items always re-establishes freshness. -/
theorem viewFresh_updateListItems (x : Model) : viewFresh (updateListItems x) := rfl

/-- Freshness survives cursor movement. -/
theorem viewFresh_listUpdate (x : Model) (k : Key) (h : viewFresh x) :
    viewFresh (listUpdate x k) :=
  viewFresh_keep h (listUpdate_listItems x k) (listUpdate_devMode x k)
    (listUpdate_allUnits x k)

/-- Freshness survives a subscription restart followed by cursor
handling (neither touches the list fields). -/
theorem viewFresh_listUpdate_startStreaming (x : Model) (n : String) (k : Key)
    (h : viewFresh x) : viewFresh (listUpdate (startStreaming x n).1 k) :=
  viewFresh_keep h
    (by rw [listUpdate_listItems, startStreaming_listItems])
    (by rw [listUpdate_devMode, startStreaming_devMode])
    (by rw [listUpdate_allUnits, startStreaming_allUnits])

/-- Every key-press transition preserves freshness of the filtered view. -/
theorem viewFresh_updateKey (m : Model) (k : Key) (h : viewFresh m) :
    viewFresh (updateKey m k).1 := by
  unfold updateKey
  dsimp only
  repeat' split
  all_goals try dsimp only
  all_goals
    first
    | exact h
    | exact viewFresh_listUpdate_startStreaming _ _ _ (viewFresh_keep h rfl rfl rfl)
    | exact viewFresh_listUpdate _ _ (viewFresh_keep h rfl rfl rfl)
    | exact viewFresh_keep (viewFresh_updateListItems _) rfl rfl rfl

/-- Every transition of the controller preserves freshness of the
filtered view. -/
theorem viewFresh_update (m : Model) (msg : Msg) (h : viewFresh m) :
    viewFresh (update m msg).1 := by
  cases msg with
  | key k => exact viewFresh_updateKey m k h
  | units us => exact viewFresh_updateListItems _
  | logLine s =>
      unfold update
      dsimp only
      repeat' split
      all_goals exact h
  | config s =>
      unfold update
      dsimp only
      repeat' split
      all_goals exact h
  | windowSize w hh => exact h
  | stats st => exact h
  | actionResult err a => cases err <;> exact h
  | errM e => exact h
  | spinnerTick => exact h

/-- The filtered view is a subsequence of the collection it was
computed from. -/
theorem filterUnits_sublist (dm : Bool) (us : List SystemdUnit) :
    (filterUnits dm us).Sublist us := by
  unfold filterUnits
  split
  · exact List.filter_sublist us
  · exact List.Sublist.refl us

/-!
The claims.
-/

/-- C1 (counterexample): the claim fails.  Under the scheduling
`c1script` — subscribe to `alpha.service`, then, while one
`waitForLogLine` receive is pending on alpha's channel, press
esc / down / enter so the subscription switches to `beta.service`
with alpha's delivered line still sitting in the event queue — the
controller folds the stale `logLineMsg` after the switch: the buffer
ends as `["a1"]` under target `beta.service`, whose journal is empty,
so a late-arriving line of the cancelled alpha subscription was
appended rather than ignored or unreachable. -/
theorem c1_counterexample : ¬ claimC1 := by
  intro h
  exact absurd (h c1script "a1" (by decide)) (by decide)

/-- C1 (amended): the Controller never issues a new read against a
superseded channel — every wait-for-line effect produced by a
transition targets the channel the post-state records as current; a
receive already pending on the old channel at switch time can however
still deliver one stale line, which is appended unchecked. -/
theorem c1_amended_wait_targets_current_channel :
    ∀ (m : Model) (msg : Msg) (ch : Option Nat),
      Effect.waitLogLine ch ∈ (update m msg).2 → ch = (update m msg).1.logChan := by
  intro m msg
  cases msg with
  | key k =>
      show ∀ ch, Effect.waitLogLine ch ∈ (updateKey m k).2 →
        ch = (updateKey m k).1.logChan
      unfold updateKey
      dsimp only
      repeat' split
      all_goals try dsimp only
      all_goals intro ch h
      all_goals
        first
        | exact absurd h (List.not_mem_nil _)
        | (rw [List.mem_append] at h
           rcases h with h | h
           · exact absurd h (startStreaming_no_wait _ _ _)
           · simp only [List.mem_singleton, Effect.waitLogLine.injEq] at h
             rw [listUpdate_logChan]
             exact h)
        | simpa only [List.mem_singleton, Effect.waitLogLine.injEq] using h
        | simp at h
  | logLine s =>
      unfold update
      dsimp only
      intro ch h
      simpa only [List.mem_singleton, Effect.waitLogLine.injEq] using h
  | units us => intro ch h; exact absurd h (List.not_mem_nil _)
  | windowSize w hh => intro ch h; exact absurd h (List.not_mem_nil _)
  | config s =>
      unfold update
      dsimp only
      intro ch h
      exact absurd h (List.not_mem_nil _)
  | stats st => intro ch h; exact absurd h (List.not_mem_nil _)
  | actionResult err a =>
      unfold update
      dsimp only
      cases err <;> intro ch h <;> simp at h
  | errM e => intro ch h; exact absurd h (List.not_mem_nil _)
  | spinnerTick => intro ch h; exact absurd h (List.not_mem_nil _)

/-- Witness for the amended C1 at a concrete transition. -/
theorem c1_witness :
    Effect.waitLogLine (none : Option Nat) ∈ (update NewModel (Msg.logLine "x")).2 ∧
    (none : Option Nat) = (update NewModel (Msg.logLine "x")).1.logChan :=
  ⟨by decide,
   c1_amended_wait_targets_current_channel NewModel (Msg.logLine "x") none (by decide)⟩

/-- C2: the log buffer never exceeds 1000 entries over any delivered
sequence of lines, and appending to a full buffer evicts exactly the
oldest line (pure FIFO), so the head of a full buffer is gone after the
next append; the `logLineMsg` case of `Update` routes every non-empty
line through `applyLogLine`, which enforces the cap. -/
theorem c2_logbuffer_cap_and_fifo :
    (∀ (m : Model) (s : String),
        (update m (Msg.logLine s)).1.logLines =
          if s = "" then m.logLines else applyLogLine m.logLines s) ∧
    (∀ msgs : List String, (msgs.foldl applyLogLine []).length ≤ 1000) ∧
    (∀ (buf : List String) (s : String), buf.length = 1000 →
        applyLogLine buf s = buf.drop 1 ++ [s]) ∧
    (∀ (l1 : String) (rest : List String) (s : String),
        (l1 :: rest).length = 1000 → l1 ∉ rest → l1 ≠ s →
        l1 ∉ applyLogLine (l1 :: rest) s) := by
  refine ⟨?_, ?_, applyLogLine_at_cap, ?_⟩
  · intro m s
    by_cases hs : s = ""
    · subst hs
      simp [update]
    · rw [if_neg hs]
      unfold update
      dsimp only
      rw [if_pos hs]
      split <;> rfl
  · intro msgs
    exact foldl_applyLogLine_length_le msgs [] (by simp)
  · intro l1 rest s hlen hnm hne hmem
    rw [applyLogLine_at_cap _ _ hlen] at hmem
    simp only [List.drop_succ_cons, List.drop_zero, List.mem_append,
      List.mem_singleton] at hmem
    rcases hmem with hmem | hmem
    · exact hnm hmem
    · exact hne hmem

/-- Witness for C2 at a concrete full buffer. -/
theorem c2_witness :
    applyLogLine (List.replicate 1000 "x") "y" =
      (List.replicate 1000 "x").drop 1 ++ ["y"] ∧
    "a" ∉ applyLogLine ("a" :: List.replicate 999 "x") "y" :=
  ⟨c2_logbuffer_cap_and_fifo.2.2.1 _ _ (by rw [List.length_replicate]),
   c2_logbuffer_cap_and_fifo.2.2.2 _ _ _
     (by rw [List.length_cons, List.length_replicate])
     (by simp only [List.mem_replicate]; decide)
     (by decide)⟩

/-- C3 (counterexample): a failed service-list fetch is delivered as
`errMsg`, for which the `Update` switch has no case: the whole state is
returned unchanged, no command is issued, and the status message still
reads the previous "Ready" — nothing in the next state describes the
failure. -/
theorem c3_counterexample :
    update NewModel (fetchUnitsResult (Except.error "boom")) = (NewModel, []) ∧
    (update NewModel (fetchUnitsResult (Except.error "boom"))).1.statusMessage
      = "Ready" :=
  ⟨rfl, rfl⟩

/-- C3 (amended): no fetch failure is fatal (every error is folded by a
total transition), but none of the three fetches surfaces its failure
as a status message: a service-list fetch error is silently ignored
(state unchanged), a config fetch error lands in the config content
text, a host-stats fetch error yields placeholder "Unknown" stats; only
a control-action failure sets the status message. -/
theorem c3_amended_fetch_error_folding :
    ∀ (m : Model) (e : String),
      update m (fetchUnitsResult (Except.error e)) = (m, []) ∧
      (update m (fetchConfigResult (Except.error e))).1.configContent =
        "Error reading config: " ++ e ∧
      (update m (fetchConfigResult (Except.error e))).1.statusMessage =
        m.statusMessage ∧
      (update m (fetchStatsResult (Except.error e))).1.stats =
        ⟨"Unknown", "Unknown", 0, ""⟩ ∧
      (update m (fetchStatsResult (Except.error e))).1.statusMessage =
        m.statusMessage ∧
      (update m (Msg.actionResult (some e) "Started")).1.statusMessage =
        "Error: " ++ e := by
  intro m e
  refine ⟨rfl, ?_, ?_, rfl, rfl, rfl⟩
  · unfold fetchConfigResult update
    dsimp only
    split <;> rfl
  · unfold fetchConfigResult update
    dsimp only
    split <;> rfl

/-- C4: a control-action result with nil error sets the transient
status message and re-issues exactly the service-list fetch effect; a
non-nil error sets an error status message and issues no effect at all
(in particular no service-list fetch). -/
theorem c4_action_result_refetch_on_success_only :
    ∀ (m : Model) (a e : String),
      (update m (Msg.actionResult none a)).1.statusMessage = a ++ " unit." ∧
      (update m (Msg.actionResult none a)).2 = [Effect.fetchUnits] ∧
      Effect.fetchUnits ∈ (update m (Msg.actionResult none a)).2 ∧
      (update m (Msg.actionResult (some e) a)).1.statusMessage = "Error: " ++ e ∧
      (update m (Msg.actionResult (some e) a)).2 = [] ∧
      Effect.fetchUnits ∉ (update m (Msg.actionResult (some e) a)).2 := by
  intro m a e
  exact ⟨rfl, rfl, by simp [update], rfl, rfl, by simp [update]⟩

/-- C5 (counterexample): the claim fails.  In the reachable state
`c5model` the selection is `beta.service`; folding a service-list
result that still contains `beta.service` (merely reordered) moves the
selection to `alpha.service`, because the numeric cursor index is kept
— selection is not preserved by name, nor reset to the first element. -/
theorem c5_counterexample :
    (selectedItem c5model).map SystemdUnit.name = some "beta.service" ∧
    "beta.service" ∈
      ((update c5model (Msg.units [unitBeta, unitAlpha])).1.listItems.map
        SystemdUnit.name) ∧
    (selectedItem (update c5model (Msg.units [unitBeta, unitAlpha])).1).map
      SystemdUnit.name = some "alpha.service" ∧
    ("alpha.service" : String) ≠ "beta.service" := by
  decide

/-- C5 (amended): a service-list result replaces the whole collection
and recomputes the filtered view, but the selection is handled purely
positionally: the cursor index is left unchanged (no preservation by
name, no reset to the first element). -/
theorem c5_amended_units_folding :
    ∀ (m : Model) (us : List SystemdUnit),
      update m (Msg.units us) = (updateListItems { m with allUnits := us }, []) ∧
      (update m (Msg.units us)).1.allUnits = us ∧
      (update m (Msg.units us)).1.listItems = filterUnits m.devMode us ∧
      (update m (Msg.units us)).1.listIndex = m.listIndex :=
  fun _ _ => ⟨rfl, rfl, rfl, rfl⟩

/-- C6: the filtered view is always a subsequence (in order) of the
last-fetched collection, it is fresh at startup, and every controller
transition — in particular a service-list replacement and a dev-filter
toggle — re-establishes freshness, so the view is never stale relative
to a toggle that already occurred. -/
theorem c6_filtered_view_invariant :
    (∀ (dm : Bool) (us : List SystemdUnit), (filterUnits dm us).Sublist us) ∧
    viewFresh NewModel ∧
    (∀ (m : Model) (msg : Msg), viewFresh m → viewFresh (update m msg).1) :=
  ⟨filterUnits_sublist, rfl, viewFresh_update⟩

/-- Witness for C6 at the start state and a dev-filter toggle. -/
theorem c6_witness :
    viewFresh NewModel ∧ viewFresh (update NewModel (Msg.key Key.d)).1 :=
  ⟨rfl, c6_filtered_view_invariant.2.2 NewModel (Msg.key Key.d) rfl⟩

/-- C7: starting a subscription for the name already being streamed is
a no-op — `startStreaming` returns the state unchanged with no effect —
and a repeated "view logs" enter on that service changes only the view
mode and focused pane: the log buffer, the cancel handle and the
channel stay untouched, no clear, no cancel, no spawn; the only effect
is a wait on the existing channel. -/
theorem c7_idempotent_restart :
    ∀ (m : Model) (name : String), m.streamingUnit = name →
      startStreaming m name = (m, []) ∧
      (∀ u : SystemdUnit, m.viewMode ≠ ModeDashboard → m.activePane = PaneList →
        m.settingFilter = false → selectedItem m = some u → u.name = name →
        update m (Msg.key Key.enter) =
          ({ m with viewMode := ModeLogs, activePane := PaneContent },
           [Effect.waitLogLine m.logChan])) := by
  intro m name hname
  constructor
  · unfold startStreaming
    rw [if_pos hname]
  · intro u hvm hap hsf hsel hun
    show updateKey m Key.enter = _
    unfold updateKey
    rw [if_neg (show ¬ (Key.enter = Key.q) by decide)]
    rw [if_neg hvm]
    rw [if_neg (show ¬ (Key.enter = Key.tab) by decide)]
    rw [if_neg (show ¬ (Key.enter = Key.d) by decide)]
    rw [if_neg (show ¬ (m.activePane = PaneList ∧ m.settingFilter = true) by
      simp [hsf])]
    rw [if_pos hap]
    dsimp only
    rw [show selectedItem
        { m with viewMode := ModeLogs, activePane := PaneContent } = some u
      from hsel]
    dsimp only
    unfold startStreaming
    rw [if_pos (show ({ m with viewMode := ModeLogs, activePane := PaneContent
        } : Model).streamingUnit = u.name from hname.trans hun.symm)]
    rfl

/-- Witness for C7 at a concrete state streaming `alpha.service`. -/
theorem c7_witness :
    startStreaming c7model "alpha.service" = (c7model, []) ∧
    (update c7model (Msg.key Key.enter)).1.logLines = c7model.logLines ∧
    (update c7model (Msg.key Key.enter)).1.logChan = c7model.logChan ∧
    (update c7model (Msg.key Key.enter)).1.logCancel = c7model.logCancel := by
  have h := c7_idempotent_restart c7model "alpha.service" rfl
  refine ⟨h.1, ?_, ?_, ?_⟩ <;>
    rw [h.2 unitAlpha (by decide) rfl rfl (by decide) rfl]

/-- C8: the presentation layer degrades gracefully instead of
faulting: the row renderer is total for every width (no negative-count
repeat, no out-of-range slice), the shared truncation logic emits the
ellipsis marker only when the available width exceeds the minimum
threshold of 3 and hides the text otherwise, the header spacer and the
tab-row separator clamp negative widths to zero (rendering nothing),
and at inner width 0 a row renders empty title, gap and description. -/
theorem c8_layout_degrades_gracefully :
    (∀ (w : Int) (t d a : List Char) (sel : Bool),
        (renderItem w t d a sel).isSome = true) ∧
    (∀ (s : List Char) (avail : Int),
        truncateLine s avail =
          some (if (s.length : Int) > avail then
                  if avail > 3 then s.take (avail - 3).toNat ++ ellipsisMark else []
                else s)) ∧
    (∀ (lcw hw sw : Int), viewSpacer lcw hw sw =
        some (List.replicate (max (lcw - hw - sw) 0).toNat ' ')) ∧
    (∀ (mw lw cw iw : Int), viewSeparatorLine mw lw cw iw =
        some (List.replicate (max (mw - lw - cw - iw - 4) 0).toNat '─')) ∧
    (∀ (t d a : List Char) (sel : Bool),
        renderItem 2 t d a sel = some ⟨badgeOf a, []⟩) ∧
    viewSeparatorLine 0 6 8 0 = some [] ∧
    viewSpacer 0 6 7 = some [] :=
  ⟨renderItem_isSome, truncateLine_eq, viewSpacer_eq, viewSeparatorLine_eq,
   renderItem_inner_zero, by decide, by decide⟩

/-- C9: a delivered empty log line leaves the model — in particular the
buffer and the viewport content — completely unchanged while still
re-issuing the wait effect on the current channel; and `waitForLogLine`
yields the nil message for a nil channel as well as for a closed
channel, so the stream goes quiet without error. -/
theorem c9_empty_line_and_closed_channel :
    (∀ m : Model,
        update m (Msg.logLine "") = (m, [Effect.waitLogLine m.logChan])) ∧
    (∀ recv : Nat → RecvResult, waitForLogLine none recv = none) ∧
    (∀ ch : Nat, waitForLogLine (some ch) (fun _ => RecvResult.closed) = none) := by
  refine ⟨?_, fun _ => rfl, fun _ => rfl⟩
  intro m
  unfold update
  dsimp only
  rw [if_neg (by simp)]

/-- C10: the startup state has the dev filter already on, dashboard
view mode, list pane focus and status "Ready"; hence the very first
service-list result is displayed filtered by the hardcoded dev keyword
predicate before any toggle is pressed. -/
theorem c10_initial_state :
    NewModel.devMode = true ∧ NewModel.viewMode = ModeDashboard ∧
    NewModel.activePane = PaneList ∧ NewModel.statusMessage = "Ready" ∧
    (∀ us : List SystemdUnit,
      (update NewModel (Msg.units us)).1.listItems = filterUnits true us) ∧
    (∀ us : List SystemdUnit, filterUnits true us = us.filter isDevUnit) :=
  ⟨rfl, rfl, rfl, rfl, fun _ => rfl, fun _ => rfl⟩

end Vigilix
